import Mathlib

/-!
Shallow embedding of `src/financial_datasets_server.py`, an MCP adapter over
the financialdatasets.ai HTTP API, together with proofs of the specification
claims about it.

Modelling choices:
* JSON values are modelled by the inductive `Json`; numbers are modelled as
  integers (the claims under study concern the structure of payloads, not
  float formatting).
* `json.dumps(x, indent=2)` is modelled by `Json.dumps` (two-space indent,
  separators `(",", ": ")`, escapes `\" \\ \n \r \t \b \f` and `\u00XX` for
  other control characters; non-ASCII characters are emitted literally).
* `json.loads` is modelled by `Json.loads`, a fuel-based recursive-descent
  reader over the character list.
* The network is an oracle `env : String → FetchOutcome` mapping the request
  URL to either a decoded JSON body (HTTP 2xx with a decodable body) or a
  failure message (connection error, non-2xx status via `raise_for_status`,
  or an undecodable body) — exactly the two ways `make_request` can resolve.
* Python truthiness (`if not data`) is `Json.isFalsy`; `dict.get(k, d)` on a
  non-dict raises `AttributeError`, modelled by `pyGet` returning
  `Except PyExn Json`.
* Each tool function returns a `ToolRun`: the URL it builds for the single
  upstream GET plus its result (`Except.ok` a string, or a raised exception).
-/

/-- A decoded JSON value (numbers restricted to integers). -/
inductive Json where
  | null
  | bool (b : Bool)
  | num (n : Int)
  | str (s : String)
  | arr (elems : List Json)
  | obj (fields : List (String × Json))

/-- Python truthiness of a decoded JSON value: `None`, `False`, `0`, `""`,
`[]` and the empty dict are falsy, everything else is truthy. -/
def Json.isFalsy : Json → Bool
  | .null => true
  | .bool b => !b
  | .num n => n == 0
  | .str s => s.data.isEmpty
  | .arr elems => elems.isEmpty
  | .obj fields => fields.isEmpty

/-- First binding of `key` in an association list of object fields (a Python
dict has unique keys, so first and last agree on decoded payloads). -/
def lookupField : List (String × Json) → String → Option Json
  | [], _ => none
  | (k, v) :: fields, key => if k = key then some v else lookupField fields key

/-- The one exception class the adapter can raise: calling `.get` on a value
that is not a dict raises `AttributeError`. -/
inductive PyExn where
  | attributeError
deriving DecidableEq

/-- Python `data.get(key, dflt)`: field lookup on a dict, `AttributeError`
on any other receiver. -/
def pyGet (data : Json) (key : String) (dflt : Json) : Except PyExn Json :=
  match data with
  | .obj fields => .ok ((lookupField fields key).getD dflt)
  | _ => .error .attributeError

/-- Decimal digit characters of a natural number, most significant first. -/
def digs (n : Nat) : List Char :=
  if n < 10 then [Char.ofNat (48 + n)]
  else digs (n / 10) ++ [Char.ofNat (48 + n % 10)]
termination_by n
decreasing_by exact Nat.div_lt_self (by omega) (by omega)

/-- Characters of an integer as Python prints it: optional minus sign, then
decimal digits. -/
def intChars (n : Int) : List Char :=
  if n < 0 then '-' :: digs n.natAbs else digs n.natAbs

/-- Lower-case hexadecimal digit for `n < 16`. -/
def hexDig (n : Nat) : Char :=
  if n < 10 then Char.ofNat (48 + n) else Char.ofNat (87 + n)

/-- The opening brace character, `Char.ofNat 123`. -/
def obrace : Char := Char.ofNat 123

/-- The closing brace character, `Char.ofNat 125`. -/
def cbrace : Char := Char.ofNat 125

/-- JSON escape of one character, as Python's serializer emits it: the seven
short escapes, `\u00XX` for remaining control characters, everything else
verbatim. -/
def escChar (c : Char) : List Char :=
  if c = '"' then ['\\', '"']
  else if c = '\\' then ['\\', '\\']
  else if c = '\n' then ['\\', 'n']
  else if c = '\r' then ['\\', 'r']
  else if c = '\t' then ['\\', 't']
  else if c = '\u0008' then ['\\', 'b']
  else if c = '\u000C' then ['\\', 'f']
  else if c.toNat < 32 then ['\\', 'u', '0', '0', hexDig (c.toNat / 16), hexDig (c.toNat % 16)]
  else [c]

/-- JSON escape of a character list. -/
def escChars : List Char → List Char
  | [] => []
  | c :: cs => escChar c ++ escChars cs

/-- An indentation run of `k` spaces. -/
def pad (k : Nat) : List Char := List.replicate k ' '

mutual
/-- Characters of `json.dumps(v, indent=2)` with the opening delimiter at
indentation depth `k`: empty containers print inline, non-empty containers
put each element on its own line indented `k + 2` spaces. -/
def emit (k : Nat) : Json → List Char
  | .null => 'n' :: ['u', 'l', 'l']
  | .bool true => 't' :: ['r', 'u', 'e']
  | .bool false => 'f' :: ['a', 'l', 's', 'e']
  | .num n => intChars n
  | .str s => '"' :: (escChars s.data ++ ['"'])
  | .arr [] => ['[', ']']
  | .arr (v :: vs) =>
      '[' :: '\n' :: (pad (k + 2) ++ (emit (k + 2) v ++
        (emitTail (k + 2) vs ++ '\n' :: (pad k ++ [']']))))
  | .obj [] => [obrace, cbrace]
  | .obj ((key, v) :: fields) =>
      obrace :: '\n' :: (pad (k + 2) ++ ('"' :: (escChars key.data ++ '"' :: ':' :: ' ' ::
        (emit (k + 2) v ++ (emitPairs (k + 2) fields ++ '\n' :: (pad k ++ [cbrace]))))))
/-- Second and later array elements: a comma, a newline, the indentation,
the element. -/
def emitTail (k : Nat) : List Json → List Char
  | [] => []
  | v :: vs => ',' :: '\n' :: (pad k ++ (emit k v ++ emitTail k vs))
/-- Second and later object members: a comma, a newline, the indentation,
the quoted key, a colon and space, the value. -/
def emitPairs (k : Nat) : List (String × Json) → List Char
  | [] => []
  | (key, v) :: fields =>
      ',' :: '\n' :: (pad k ++ ('"' :: (escChars key.data ++ '"' :: ':' :: ' ' ::
        (emit k v ++ emitPairs k fields))))
end

/-- `json.dumps(v, indent=2)` as a string. -/
def Json.dumps (v : Json) : String := String.mk (emit 0 v)

/-- Whitespace as the JSON reader skips it. -/
def isWs (c : Char) : Bool := c = ' ' || c = '\n' || c = '\t' || c = '\r'

/-- An ASCII decimal digit. -/
def isDig (c : Char) : Bool := '0' ≤ c && c ≤ '9'

/-- Drop leading whitespace. -/
def skipWs : List Char → List Char
  | [] => []
  | c :: cs => if isWs c then skipWs cs else c :: cs

/-- Read a maximal run of decimal digits into an accumulator. -/
def grabNum : List Char → Nat → Nat × List Char
  | c :: cs, acc => if isDig c then grabNum cs (acc * 10 + (c.toNat - 48)) else (acc, c :: cs)
  | [], acc => (acc, [])

/-- Value of a hexadecimal digit character. -/
def hexv (c : Char) : Option Nat :=
  if '0' ≤ c && c ≤ '9' then some (c.toNat - 48)
  else if 'a' ≤ c && c ≤ 'f' then some (c.toNat - 87)
  else if 'A' ≤ c && c ≤ 'F' then some (c.toNat - 55)
  else none

/-- Unescaped form of a single-character JSON escape. -/
def unesc (c : Char) : Option Char :=
  if c = '"' then some '"'
  else if c = '\\' then some '\\'
  else if c = '/' then some '/'
  else if c = 'n' then some '\n'
  else if c = 'r' then some '\r'
  else if c = 't' then some '\t'
  else if c = 'b' then some '\u0008'
  else if c = 'f' then some '\u000C'
  else none

/-- Read a JSON string body after its opening quote; yields the decoded
characters and the remainder after the closing quote. -/
def loadsStr : List Char → Option (List Char × List Char)
  | '"' :: rest => some ([], rest)
  | '\\' :: 'u' :: a :: b :: c :: d :: rest =>
      match hexv a, hexv b, hexv c, hexv d with
      | some va, some vb, some vc, some vd =>
          match loadsStr rest with
          | some (cs, r) => some (Char.ofNat (((va * 16 + vb) * 16 + vc) * 16 + vd) :: cs, r)
          | none => none
      | _, _, _, _ => none
  | '\\' :: e :: rest =>
      match unesc e with
      | some ch =>
          match loadsStr rest with
          | some (cs, r) => some (ch :: cs, r)
          | none => none
      | none => none
  | c :: rest =>
      match loadsStr rest with
      | some (cs, r) => some (c :: cs, r)
      | none => none
  | [] => none

mutual
/-- Read one JSON value (fuel-bounded recursive descent). -/
def loadsVal : Nat → List Char → Option (Json × List Char)
  | 0, _ => none
  | fuel + 1, input =>
    match skipWs input with
    | [] => none
    | c :: r =>
      if c = 'n' then
        match r with
        | 'u' :: 'l' :: 'l' :: r2 => some (.null, r2)
        | _ => none
      else if c = 't' then
        match r with
        | 'r' :: 'u' :: 'e' :: r2 => some (.bool true, r2)
        | _ => none
      else if c = 'f' then
        match r with
        | 'a' :: 'l' :: 's' :: 'e' :: r2 => some (.bool false, r2)
        | _ => none
      else if c = '"' then
        match loadsStr r with
        | some (cs, r2) => some (.str (String.mk cs), r2)
        | none => none
      else if c = '[' then
        match skipWs r with
        | [] => none
        | d :: r2 =>
          if d = ']' then some (.arr [], r2)
          else
            match loadsVal fuel (d :: r2) with
            | some (v, r3) =>
              match loadsTail fuel r3 with
              | some (vs, r4) => some (.arr (v :: vs), r4)
              | none => none
            | none => none
      else if c = obrace then
        match skipWs r with
        | [] => none
        | d :: r2 =>
          if d = cbrace then some (.obj [], r2)
          else if d = '"' then
            match loadsStr r2 with
            | some (kcs, r3) =>
              match skipWs r3 with
              | ':' :: r4 =>
                match loadsVal fuel r4 with
                | some (v, r5) =>
                  match loadsPairs fuel r5 with
                  | some (fields, r6) => some (.obj ((String.mk kcs, v) :: fields), r6)
                  | none => none
                | none => none
              | _ => none
            | none => none
          else none
      else if c = '-' then
        match r with
        | d :: r2 =>
            if isDig d then
              let p := grabNum (d :: r2) 0
              some (.num (-(p.1 : Int)), p.2)
            else none
        | [] => none
      else if isDig c then
        let p := grabNum (c :: r) 0
        some (.num (p.1 : Int), p.2)
      else none
/-- Read array elements after the first one: a close bracket ends the array,
a comma is followed by one more value. -/
def loadsTail : Nat → List Char → Option (List Json × List Char)
  | 0, _ => none
  | fuel + 1, input =>
    match skipWs input with
    | ']' :: r => some ([], r)
    | ',' :: r =>
      match loadsVal fuel r with
      | some (v, r2) =>
        match loadsTail fuel r2 with
        | some (vs, r3) => some (v :: vs, r3)
        | none => none
      | none => none
    | _ => none
/-- Read object members after the first one: a close brace ends the object,
a comma is followed by one more quoted key, colon and value. -/
def loadsPairs : Nat → List Char → Option (List (String × Json) × List Char)
  | 0, _ => none
  | fuel + 1, input =>
    match skipWs input with
    | [] => none
    | c :: r =>
      if c = cbrace then some ([], r)
      else if c = ',' then
        match skipWs r with
        | '"' :: r2 =>
          match loadsStr r2 with
          | some (kcs, r3) =>
            match skipWs r3 with
            | ':' :: r4 =>
              match loadsVal fuel r4 with
              | some (v, r5) =>
                match loadsPairs fuel r5 with
                | some (fields, r6) => some ((String.mk kcs, v) :: fields, r6)
                | none => none
              | none => none
            | _ => none
          | none => none
        | _ => none
      else none
end

/-- `json.loads` on a complete document: one value, then only whitespace. -/
def Json.loads (s : String) : Option Json :=
  match loadsVal (s.data.length + 1) s.data with
  | some (v, r) => if (skipWs r).isEmpty then some v else none
  | none => none

/-- How one HTTP GET resolves: a decoded JSON body, or a request-level
failure (network error, non-2xx status raised by `raise_for_status`, or an
undecodable body) carrying the exception text. -/
inductive FetchOutcome where
  | success (body : Json)
  | failure (message : String)

/-- `make_request(url)`: the upstream body on success, and on any exception
the dict `{"Error": str(e)}` built by its handler. -/
def make_request (env : String → FetchOutcome) (url : String) : Json :=
  match env url with
  | .success body => body
  | .failure message => .obj [("Error", .str message)]

/-- One tool invocation as observed from outside: the URL of the single
upstream GET it issues, and its result (a returned string, or a raised
exception). -/
structure ToolRun where
  url : String
  result : Except PyExn String

/-- Base host of the upstream API. -/
def FINANCIAL_DATASETS_API_BASE : String := "https://api.financialdatasets.ai"

/-- Tool `get_income_statements`. -/
def get_income_statements (ticker cutoff_date period : String) (limit : Int)
    (env : String → FetchOutcome) : ToolRun :=
  let url := FINANCIAL_DATASETS_API_BASE ++ "/financials/income-statements/?ticker=" ++ ticker ++
    "&period=" ++ period ++ "&limit=" ++ toString limit ++ "&report_period_lte=" ++ cutoff_date
  let data := make_request env url
  { url := url
    result :=
      if data.isFalsy then
        .ok "Unable to fetch income statements or no income statements found."
      else
        match pyGet data "income_statements" (.arr []) with
        | .error e => .error e
        | .ok income_statements =>
          if income_statements.isFalsy then
            .ok "Unable to fetch income statements or no income statements found."
          else .ok income_statements.dumps }

/-- Tool `get_balance_sheets`. -/
def get_balance_sheets (ticker cutoff_date period : String) (limit : Int)
    (env : String → FetchOutcome) : ToolRun :=
  let url := FINANCIAL_DATASETS_API_BASE ++ "/financials/balance-sheets/?ticker=" ++ ticker ++
    "&period=" ++ period ++ "&limit=" ++ toString limit ++ "&report_period_lte=" ++ cutoff_date
  let data := make_request env url
  { url := url
    result :=
      if data.isFalsy then
        .ok "Unable to fetch balance sheets or no balance sheets found."
      else
        match pyGet data "balance_sheets" (.arr []) with
        | .error e => .error e
        | .ok balance_sheets =>
          if balance_sheets.isFalsy then
            .ok "Unable to fetch balance sheets or no balance sheets found."
          else .ok balance_sheets.dumps }

/-- Tool `get_cash_flow_statements`. -/
def get_cash_flow_statements (ticker cutoff_date period : String) (limit : Int)
    (env : String → FetchOutcome) : ToolRun :=
  let url := FINANCIAL_DATASETS_API_BASE ++ "/financials/cash-flow-statements/?ticker=" ++ ticker ++
    "&period=" ++ period ++ "&limit=" ++ toString limit ++ "&report_period_lte=" ++ cutoff_date
  let data := make_request env url
  { url := url
    result :=
      if data.isFalsy then
        .ok "Unable to fetch cash flow statements or no cash flow statements found."
      else
        match pyGet data "cash_flow_statements" (.arr []) with
        | .error e => .error e
        | .ok cash_flow_statements =>
          if cash_flow_statements.isFalsy then
            .ok "Unable to fetch cash flow statements or no cash flow statements found."
          else .ok cash_flow_statements.dumps }

/-- Tool `get_historical_stock_prices`: clamps `end_date` to `cutoff_date`
when it exceeds it, then requests `/prices/`. -/
def get_historical_stock_prices (ticker start_date end_date cutoff_date interval : String)
    (interval_multiplier : Int) (env : String → FetchOutcome) : ToolRun :=
  let end_date := if end_date > cutoff_date then cutoff_date else end_date
  let url := FINANCIAL_DATASETS_API_BASE ++ "/prices/?ticker=" ++ ticker ++
    "&interval=" ++ interval ++ "&interval_multiplier=" ++ toString interval_multiplier ++
    "&start_date=" ++ start_date ++ "&end_date=" ++ end_date
  let data := make_request env url
  { url := url
    result :=
      if data.isFalsy then
        .ok "Unable to fetch prices or no prices found."
      else
        match pyGet data "prices" (.arr []) with
        | .error e => .error e
        | .ok prices =>
          if prices.isFalsy then
            .ok "Unable to fetch prices or no prices found."
          else .ok prices.dumps }

/-- Tool `get_company_news`: requests `/news/` with a fixed limit of 20 and
`cutoff_date` as the upstream `end_date` filter. -/
def get_company_news (ticker cutoff_date : String) (env : String → FetchOutcome) : ToolRun :=
  let url := FINANCIAL_DATASETS_API_BASE ++ "/news/?limit=20&end_date=" ++ cutoff_date ++
    "&ticker=" ++ ticker
  let data := make_request env url
  { url := url
    result :=
      if data.isFalsy then
        .ok "Unable to fetch news or no news found."
      else
        match pyGet data "news" (.arr []) with
        | .error e => .error e
        | .ok news =>
          if news.isFalsy then
            .ok "Unable to fetch news or no news found."
          else .ok news.dumps }

/-- Tool `get_available_crypto_tickers`: accepts `cutoff_date` but does not
use it, and — unlike every other tool — serializes the extracted `tickers`
value without re-checking it for emptiness. -/
def get_available_crypto_tickers (cutoff_date : String)
    (env : String → FetchOutcome) : ToolRun :=
  let url := FINANCIAL_DATASETS_API_BASE ++ "/crypto/prices/tickers"
  let data := make_request env url
  { url := url
    result :=
      if data.isFalsy then
        .ok "Unable to fetch available crypto tickers or no available crypto tickers found."
      else
        match pyGet data "tickers" (.arr []) with
        | .error e => .error e
        | .ok tickers => .ok tickers.dumps }

/-- Tool `get_crypto_prices`: clamps `end_date` to `cutoff_date` when it
exceeds it, then requests `/crypto/prices/`. -/
def get_crypto_prices (ticker start_date end_date cutoff_date interval : String)
    (interval_multiplier : Int) (env : String → FetchOutcome) : ToolRun :=
  let end_date := if end_date > cutoff_date then cutoff_date else end_date
  let url := FINANCIAL_DATASETS_API_BASE ++ "/crypto/prices/?ticker=" ++ ticker ++
    "&interval=" ++ interval ++ "&interval_multiplier=" ++ toString interval_multiplier ++
    "&start_date=" ++ start_date ++ "&end_date=" ++ end_date
  let data := make_request env url
  { url := url
    result :=
      if data.isFalsy then
        .ok "Unable to fetch prices or no prices found."
      else
        match pyGet data "prices" (.arr []) with
        | .error e => .error e
        | .ok prices =>
          if prices.isFalsy then
            .ok "Unable to fetch prices or no prices found."
          else .ok prices.dumps }

/-- Tool `get_historical_crypto_prices`: a verbatim duplicate of
`get_crypto_prices` in the source, translated separately. -/
def get_historical_crypto_prices (ticker start_date end_date cutoff_date interval : String)
    (interval_multiplier : Int) (env : String → FetchOutcome) : ToolRun :=
  let end_date := if end_date > cutoff_date then cutoff_date else end_date
  let url := FINANCIAL_DATASETS_API_BASE ++ "/crypto/prices/?ticker=" ++ ticker ++
    "&interval=" ++ interval ++ "&interval_multiplier=" ++ toString interval_multiplier ++
    "&start_date=" ++ start_date ++ "&end_date=" ++ end_date
  let data := make_request env url
  { url := url
    result :=
      if data.isFalsy then
        .ok "Unable to fetch prices or no prices found."
      else
        match pyGet data "prices" (.arr []) with
        | .error e => .error e
        | .ok prices =>
          if prices.isFalsy then
            .ok "Unable to fetch prices or no prices found."
          else .ok prices.dumps }

/-- A remainder that cannot extend a decimal digit run: empty, or starting
with a non-digit. Every delimiter the serializer emits after a number
(newline, comma, bracket, brace) qualifies. -/
def digBoundary : List Char → Bool
  | [] => true
  | c :: _ => !(isDig c)

/-- Upstream outcomes under which each tool resolves without raising: any
request-level failure, a body that is a JSON object, or a falsy body. -/
def SafeBody : FetchOutcome → Prop
  | .failure _ => True
  | .success body => (∃ fields, body = .obj fields) ∨ body.isFalsy = true

/-! ## Digit and number lemmas -/

theorem digit_char_spec (n : Nat) (h : n < 10) :
    (Char.ofNat (48 + n)).toNat - 48 = n ∧ isDig (Char.ofNat (48 + n)) = true := by
  interval_cases n <;> exact ⟨by decide, by decide⟩

theorem digs_step (n : Nat) :
    digs n = (if n < 10 then [] else digs (n / 10)) ++ [Char.ofNat (48 + n % 10)] := by
  rw [digs]
  by_cases h : n < 10
  · simp [h, Nat.mod_eq_of_lt h]
  · simp [h]

theorem digs_ne_nil (n : Nat) : digs n ≠ [] := by
  rw [digs_step]; simp

theorem digs_all_dig (n : Nat) : ∀ c ∈ digs n, isDig c = true := by
  induction n using Nat.strong_induction_on with
  | _ n ih =>
    rw [digs_step]
    intro c hc
    rcases List.mem_append.mp hc with h | h
    · by_cases h10 : n < 10
      · simp [h10] at h
      · exact ih (n / 10) (Nat.div_lt_self (by omega) (by omega)) c (by simpa [h10] using h)
    · rw [List.mem_singleton] at h
      subst h
      exact (digit_char_spec _ (Nat.mod_lt _ (by omega))).2

theorem grabNum_stop {l : List Char} (h : digBoundary l = true) (acc : Nat) :
    grabNum l acc = (acc, l) := by
  match l with
  | [] => rfl
  | c :: t =>
      simp only [digBoundary, Bool.not_eq_true'] at h
      simp [grabNum, h]

theorem grabNum_run (ds : List Char) (hds : ∀ c ∈ ds, isDig c = true) :
    ∀ (rest : List Char) (acc : Nat),
      grabNum (ds ++ rest) acc
        = grabNum rest (ds.foldl (fun a c => a * 10 + (c.toNat - 48)) acc) := by
  induction ds with
  | nil => intro rest acc; rfl
  | cons c t ih =>
      intro rest acc
      have hc : isDig c = true := hds c (by simp)
      simp [grabNum, hc, ih (fun x hx => hds x (by simp [hx]))]

theorem foldl_digs (n : Nat) : ∀ acc : Nat,
    (digs n).foldl (fun a c => a * 10 + (c.toNat - 48)) acc
      = acc * 10 ^ (digs n).length + n := by
  induction n using Nat.strong_induction_on with
  | _ n ih =>
    intro acc
    by_cases h : n < 10
    · rw [digs_step, if_pos h]
      simp only [List.nil_append, List.foldl_cons, List.foldl_nil, List.length_cons,
        List.length_nil]
      rw [Nat.mod_eq_of_lt h, (digit_char_spec n h).1, pow_one]
    · rw [digs_step, if_neg h, List.foldl_append,
        ih (n / 10) (Nat.div_lt_self (by omega) (by omega)) acc]
      simp only [List.foldl_cons, List.foldl_nil, List.length_append, List.length_cons,
        List.length_nil]
      rw [(digit_char_spec _ (Nat.mod_lt _ (by omega))).1, Nat.pow_succ]
      calc (acc * 10 ^ (digs (n / 10)).length + n / 10) * 10 + n % 10
          = acc * (10 ^ (digs (n / 10)).length * 10) + (n / 10 * 10 + n % 10) := by ring
        _ = acc * (10 ^ (digs (n / 10)).length * 10) + n := by omega

theorem grabNum_digs (n : Nat) {rest : List Char} (hrest : digBoundary rest = true) :
    grabNum (digs n ++ rest) 0 = (n, rest) := by
  rw [grabNum_run (digs n) (digs_all_dig n) rest 0, foldl_digs n 0, grabNum_stop hrest]
  simp

/-! ## String escape round-trip -/

theorem hexv_hexDig (n : Nat) (h : n < 16) : hexv (hexDig n) = some n := by
  interval_cases n <;> decide

theorem loadsStr_escChar (c : Char) (rest : List Char) :
    loadsStr (escChar c ++ rest)
      = match loadsStr rest with
        | some (cs, r) => some (c :: cs, r)
        | none => none := by
  rw [escChar]
  by_cases h1 : c = '"'
  · subst h1; simp [loadsStr, unesc]
  · rw [if_neg h1]
    by_cases h2 : c = '\\'
    · subst h2; simp [loadsStr, unesc]
    · rw [if_neg h2]
      by_cases h3 : c = '\n'
      · subst h3; simp [loadsStr, unesc]
      · rw [if_neg h3]
        by_cases h4 : c = '\r'
        · subst h4; simp [loadsStr, unesc]
        · rw [if_neg h4]
          by_cases h5 : c = '\t'
          · subst h5; simp [loadsStr, unesc]
          · rw [if_neg h5]
            by_cases h6 : c = '\u0008'
            · subst h6; simp [loadsStr, unesc]
            · rw [if_neg h6]
              by_cases h7 : c = '\u000C'
              · subst h7; simp [loadsStr, unesc]
              · rw [if_neg h7]
                by_cases h8 : c.toNat < 32
                · rw [if_pos h8]
                  simp only [List.cons_append, List.nil_append]
                  have hd : c.toNat / 16 < 16 := by omega
                  have hm : c.toNat % 16 < 16 := Nat.mod_lt _ (by omega)
                  simp only [loadsStr, hexv_hexDig _ hd, hexv_hexDig _ hm]
                  have harith : ((0 * 16 + 0) * 16 + c.toNat / 16) * 16 + c.toNat % 16
                      = c.toNat := by omega
                  cases hres : loadsStr rest with
                  | none => rfl
                  | some p =>
                      obtain ⟨cs, r⟩ := p
                      show some (Char.ofNat (((0 * 16 + 0) * 16 + c.toNat / 16) * 16
                        + c.toNat % 16) :: cs, r) = some (c :: cs, r)
                      rw [harith, Char.ofNat_toNat]
                · rw [if_neg h8]
                  simp only [List.cons_append, List.nil_append]
                  rw [loadsStr.eq_def]
                  simp [h1, h2]

theorem loadsStr_escChars (l : List Char) : ∀ rest : List Char,
    loadsStr (escChars l ++ '"' :: rest) = some (l, rest) := by
  induction l with
  | nil => intro rest; rfl
  | cons c t ih =>
      intro rest
      rw [escChars, List.append_assoc, loadsStr_escChar, ih rest]

/-! ## Whitespace and dispatch lemmas -/

theorem skipWs_cons_not {c : Char} (h : isWs c = false) (l : List Char) :
    skipWs (c :: l) = c :: l := by
  simp [skipWs, h]

theorem skipWs_pad (k : Nat) (l : List Char) : skipWs (pad k ++ l) = skipWs l := by
  induction k with
  | zero => rfl
  | succ k ih =>
      rw [pad, List.replicate_succ, List.cons_append]
      have h : skipWs (' ' :: (List.replicate k ' ' ++ l))
          = skipWs (List.replicate k ' ' ++ l) := by
        simp [skipWs, isWs]
      rw [h]
      exact ih

theorem skipWs_nl (k : Nat) (l : List Char) : skipWs ('\n' :: (pad k ++ l)) = skipWs l := by
  have h : skipWs ('\n' :: (pad k ++ l)) = skipWs (pad k ++ l) := by simp [skipWs, isWs]
  rw [h, skipWs_pad]

theorem dig_ne {c : Char} (h : isDig c = true) :
    isWs c = false ∧ c ≠ ']' ∧ c ≠ 'n' ∧ c ≠ 't' ∧ c ≠ 'f' ∧ c ≠ '"' ∧ c ≠ '[' ∧
      c ≠ obrace ∧ c ≠ '-' := by
  have h1 : c ≠ ' ' := fun hc => by subst hc; exact absurd h (by decide)
  have h2 : c ≠ '\n' := fun hc => by subst hc; exact absurd h (by decide)
  have h3 : c ≠ '\t' := fun hc => by subst hc; exact absurd h (by decide)
  have h4 : c ≠ '\r' := fun hc => by subst hc; exact absurd h (by decide)
  refine ⟨by simp [isWs, h1, h2, h3, h4], ?_, ?_, ?_, ?_, ?_, ?_, ?_, ?_⟩ <;>
    (intro hc; subst hc; exact absurd h (by decide))

theorem digs_cons (n : Nat) : ∃ c t, digs n = c :: t ∧ isDig c = true := by
  match h : digs n with
  | [] => exact absurd h (digs_ne_nil n)
  | c :: t => exact ⟨c, t, rfl, digs_all_dig n c (h ▸ List.mem_cons_self c t)⟩

theorem string_mk_data (s : String) : String.mk s.data = s := rfl

/-- Serialized output never begins with whitespace or a closing bracket. -/
theorem emit_head (k : Nat) (v : Json) :
    ∃ c t, emit k v = c :: t ∧ isWs c = false ∧ c ≠ ']' := by
  cases v with
  | null => exact ⟨'n', ['u', 'l', 'l'], by simp [emit], by decide, by decide⟩
  | bool b =>
      cases b with
      | true => exact ⟨'t', ['r', 'u', 'e'], by simp [emit], by decide, by decide⟩
      | false => exact ⟨'f', ['a', 'l', 's', 'e'], by simp [emit], by decide, by decide⟩
  | num n =>
      by_cases hneg : n < 0
      · exact ⟨'-', digs n.natAbs, by simp [emit, intChars, hneg], by decide, by decide⟩
      · obtain ⟨c, t, hct, hc⟩ := digs_cons n.natAbs
        obtain ⟨hws, hbr, _⟩ := dig_ne hc
        exact ⟨c, t, by simp [emit, intChars, hneg, hct], hws, hbr⟩
  | str s => exact ⟨'"', escChars s.data ++ ['"'], by simp [emit], by decide, by decide⟩
  | arr elems =>
      cases elems with
      | nil => exact ⟨'[', [']'], by simp [emit], by decide, by decide⟩
      | cons v vs =>
          exact ⟨'[', '\n' :: (pad (k + 2) ++ (emit (k + 2) v ++
            (emitTail (k + 2) vs ++ '\n' :: (pad k ++ [']'])))),
            by simp [emit], by decide, by decide⟩
  | obj fields =>
      cases fields with
      | nil => exact ⟨obrace, [cbrace], by simp [emit], by decide, by decide⟩
      | cons p fs =>
          obtain ⟨key, v⟩ := p
          exact ⟨obrace, '\n' :: (pad (k + 2) ++ ('"' :: (escChars key.data ++
            '"' :: ':' :: ' ' :: (emit (k + 2) v ++
              (emitPairs (k + 2) fs ++ '\n' :: (pad k ++ [cbrace])))))),
            by simp [emit], by decide, by decide⟩

theorem skipWs_emit (k : Nat) (v : Json) (l : List Char) :
    skipWs (emit k v ++ l) = emit k v ++ l := by
  obtain ⟨c, t, hct, hws, _⟩ := emit_head k v
  rw [hct, List.cons_append, skipWs_cons_not hws]

/-- The reader is insensitive to leading whitespace. -/
theorem loadsVal_ws (fuel : Nat) {a b : List Char} (h : skipWs a = skipWs b) :
    loadsVal fuel a = loadsVal fuel b := by
  cases fuel with
  | zero => rfl
  | succ f => rw [loadsVal, loadsVal, h]

theorem emitTail_boundary (k : Nat) (vs : List Json) (l : List Char) :
    digBoundary (emitTail k vs ++ '\n' :: l) = true := by
  cases vs with
  | nil => simp [emitTail, digBoundary, isDig]
  | cons v vs => simp [emitTail, digBoundary, isDig]

theorem emitPairs_boundary (k : Nat) (fields : List (String × Json)) (l : List Char) :
    digBoundary (emitPairs k fields ++ '\n' :: l) = true := by
  cases fields with
  | nil => simp [emitPairs, digBoundary, isDig]
  | cons p fs =>
      obtain ⟨key, v⟩ := p
      simp [emitPairs, digBoundary, isDig]

/-! ## Serializer–reader round-trip -/

theorem skipWs_replicate (k : Nat) (l : List Char) :
    skipWs (List.replicate k ' ' ++ l) = skipWs l := skipWs_pad k l

mutual
theorem rt_emit : ∀ (v : Json) (fuel k : Nat) (rest : List Char),
    (emit k v).length < fuel → digBoundary rest = true →
    loadsVal fuel (emit k v ++ rest) = some (v, rest)
  | .null, fuel, k, rest, hf, hb => by
      cases fuel with
      | zero => exact absurd hf (Nat.not_lt_zero _)
      | succ f =>
          have he : emit k .null = ['n', 'u', 'l', 'l'] := by simp [emit]
          rw [he]
          simp [loadsVal, skipWs, isWs]
  | .bool b, fuel, k, rest, hf, hb => by
      cases fuel with
      | zero => exact absurd hf (Nat.not_lt_zero _)
      | succ f =>
          cases b with
          | true =>
              have he : emit k (.bool true) = ['t', 'r', 'u', 'e'] := by simp [emit]
              rw [he]
              simp [loadsVal, skipWs, isWs]
          | false =>
              have he : emit k (.bool false) = ['f', 'a', 'l', 's', 'e'] := by simp [emit]
              rw [he]
              simp [loadsVal, skipWs, isWs]
  | .num n, fuel, k, rest, hf, hb => by
      cases fuel with
      | zero => exact absurd hf (Nat.not_lt_zero _)
      | succ f =>
          obtain ⟨c, t, hct, hc⟩ := digs_cons n.natAbs
          obtain ⟨hws, hbr, hn, ht2, hf2, hq2, hbk2, hob2, hm2⟩ := dig_ne hc
          have hg : grabNum (c :: (t ++ rest)) 0 = (n.natAbs, rest) := by
            rw [← List.cons_append, ← hct]
            exact grabNum_digs _ hb
          by_cases hneg : n < 0
          · have he : emit k (.num n) = '-' :: digs n.natAbs := by simp [emit, intChars, hneg]
            rw [he, List.cons_append, loadsVal, skipWs_cons_not (by decide), hct,
              List.cons_append]
            simp [obrace, hc, hg]
            rw [abs_of_nonpos (le_of_lt hneg), neg_neg]
          · have he : emit k (.num n) = digs n.natAbs := by simp [emit, intChars, hneg]
            rw [he, hct, List.cons_append, loadsVal, skipWs_cons_not hws]
            simp [hn, ht2, hf2, hq2, hbk2, hob2, hm2, hc, hg]
            omega
  | .str s, fuel, k, rest, hf, hb => by
      cases fuel with
      | zero => exact absurd hf (Nat.not_lt_zero _)
      | succ f =>
          have he : emit k (.str s) ++ rest = '"' :: (escChars s.data ++ '"' :: rest) := by
            simp [emit]
          rw [he, loadsVal, skipWs_cons_not (by decide)]
          simp [loadsStr_escChars]
  | .arr [], fuel, k, rest, hf, hb => by
      cases fuel with
      | zero => exact absurd hf (Nat.not_lt_zero _)
      | succ f =>
          have he : emit k (.arr []) ++ rest = '[' :: ']' :: rest := by simp [emit]
          rw [he]
          simp [loadsVal, skipWs, isWs]
  | .arr (v :: vs), fuel, k, rest, hf, hb => by
      cases fuel with
      | zero => exact absurd hf (Nat.not_lt_zero _)
      | succ f =>
          have hlen : (emit k (.arr (v :: vs))).length
              = (emit (k + 2) v).length + (emitTail (k + 2) vs).length + (2 * k + 6) := by
            simp [emit, pad]
            ring
          have hfv : (emit (k + 2) v).length < f := by omega
          have hft : (emitTail (k + 2) vs).length < f := by omega
          have he : emit k (.arr (v :: vs)) ++ rest
              = '[' :: '\n' :: (pad (k + 2) ++ (emit (k + 2) v ++
                  (emitTail (k + 2) vs ++ '\n' :: (pad k ++ (']' :: rest))))) := by
            simp [emit]
          obtain ⟨c, t, hct, hcws, hcbr⟩ := emit_head (k + 2) v
          have hv := rt_emit v f (k + 2)
            (emitTail (k + 2) vs ++ '\n' :: (pad k ++ (']' :: rest))) hfv
            (emitTail_boundary _ _ _)
          have htl := rt_emitTail vs f (k + 2) k rest hft
          rw [he, loadsVal, skipWs_cons_not (by decide)]
          rw [hct, List.cons_append] at hv
          simp [skipWs_nl, skipWs_emit, hct, skipWs_cons_not hcws, hcbr, hv, htl]
  | .obj [], fuel, k, rest, hf, hb => by
      cases fuel with
      | zero => exact absurd hf (Nat.not_lt_zero _)
      | succ f =>
          have he : emit k (.obj []) ++ rest = obrace :: cbrace :: rest := by simp [emit]
          rw [he]
          simp [loadsVal, skipWs, isWs, obrace, cbrace]
  | .obj ((key, v) :: fields), fuel, k, rest, hf, hb => by
      cases fuel with
      | zero => exact absurd hf (Nat.not_lt_zero _)
      | succ f =>
          have hlen : (emit k (.obj ((key, v) :: fields))).length
              = (emit (k + 2) v).length + (emitPairs (k + 2) fields).length
                + (escChars key.data).length + (2 * k + 10) := by
            simp [emit, pad]
            ring
          have hfv : (emit (k + 2) v).length < f := by omega
          have hfp : (emitPairs (k + 2) fields).length < f := by omega
          have he : emit k (.obj ((key, v) :: fields)) ++ rest
              = obrace :: '\n' :: (pad (k + 2) ++ ('"' :: (escChars key.data ++
                  '"' :: ':' :: ' ' :: (emit (k + 2) v ++ (emitPairs (k + 2) fields ++
                    '\n' :: (pad k ++ (cbrace :: rest))))))) := by
            simp [emit]
          have hv := rt_emit v f (k + 2)
            (emitPairs (k + 2) fields ++ '\n' :: (pad k ++ (cbrace :: rest))) hfv
            (emitPairs_boundary _ _ _)
          have hpr := rt_emitPairs fields f (k + 2) k rest hfp
          have hws1 : loadsVal f (' ' :: (emit (k + 2) v ++ (emitPairs (k + 2) fields ++
              '\n' :: (pad k ++ (cbrace :: rest)))))
              = loadsVal f (emit (k + 2) v ++ (emitPairs (k + 2) fields ++
                  '\n' :: (pad k ++ (cbrace :: rest)))) :=
            loadsVal_ws f (by simp [skipWs, isWs])
          rw [he, loadsVal, skipWs_cons_not (by decide)]
          simp only [obrace, cbrace] at hws1 hv hpr ⊢
          simp [skipWs_nl, skipWs_pad, skipWs_replicate, skipWs, isWs,
            loadsStr_escChars, hws1, hv, hpr]
  termination_by v _ _ _ _ _ => sizeOf v
theorem rt_emitTail : ∀ (vs : List Json) (fuel k j : Nat) (rest : List Char),
    (emitTail k vs).length < fuel →
    loadsTail fuel (emitTail k vs ++ '\n' :: (pad j ++ ']' :: rest)) = some (vs, rest)
  | [], fuel, k, j, rest, hf => by
      cases fuel with
      | zero => exact absurd hf (Nat.not_lt_zero _)
      | succ f =>
          rw [show emitTail k [] = [] from by simp [emitTail], List.nil_append, loadsTail,
            skipWs_nl]
          simp [skipWs, isWs]
  | v :: vs, fuel, k, j, rest, hf => by
      cases fuel with
      | zero => exact absurd hf (Nat.not_lt_zero _)
      | succ f =>
          have hlen : (emitTail k (v :: vs)).length
              = (emit k v).length + (emitTail k vs).length + (k + 2) := by
            simp [emitTail, pad]
            ring
          have hfv : (emit k v).length < f := by omega
          have hft : (emitTail k vs).length < f := by omega
          have he : emitTail k (v :: vs) ++ '\n' :: (pad j ++ ']' :: rest)
              = ',' :: '\n' :: (pad k ++ (emit k v ++ (emitTail k vs ++
                  '\n' :: (pad j ++ ']' :: rest)))) := by
            simp [emitTail]
          have hv := rt_emit v f k (emitTail k vs ++ '\n' :: (pad j ++ ']' :: rest)) hfv
            (emitTail_boundary _ _ _)
          have htl := rt_emitTail vs f k j rest hft
          have hws1 : loadsVal f ('\n' :: (pad k ++ (emit k v ++ (emitTail k vs ++
              '\n' :: (pad j ++ ']' :: rest)))))
              = loadsVal f (emit k v ++ (emitTail k vs ++ '\n' :: (pad j ++ ']' :: rest))) :=
            loadsVal_ws f (by rw [skipWs_nl, skipWs_emit])
          rw [he, loadsTail, skipWs_cons_not (by decide)]
          simp [hws1, hv, htl]
  termination_by vs _ _ _ _ _ => sizeOf vs
theorem rt_emitPairs : ∀ (fields : List (String × Json)) (fuel k j : Nat) (rest : List Char),
    (emitPairs k fields).length < fuel →
    loadsPairs fuel (emitPairs k fields ++ '\n' :: (pad j ++ cbrace :: rest))
      = some (fields, rest)
  | [], fuel, k, j, rest, hf => by
      cases fuel with
      | zero => exact absurd hf (Nat.not_lt_zero _)
      | succ f =>
          rw [show emitPairs k [] = [] from by simp [emitPairs], List.nil_append, loadsPairs,
            skipWs_nl, skipWs_cons_not (by decide)]
          simp
  | (key, v) :: fields, fuel, k, j, rest, hf => by
      cases fuel with
      | zero => exact absurd hf (Nat.not_lt_zero _)
      | succ f =>
          have hlen : (emitPairs k ((key, v) :: fields)).length
              = (emit k v).length + (emitPairs k fields).length
                + (escChars key.data).length + (k + 6) := by
            simp [emitPairs, pad]
            ring
          have hfv : (emit k v).length < f := by omega
          have hfp : (emitPairs k fields).length < f := by omega
          have he : emitPairs k ((key, v) :: fields) ++ '\n' :: (pad j ++ cbrace :: rest)
              = ',' :: '\n' :: (pad k ++ ('"' :: (escChars key.data ++
                  '"' :: ':' :: ' ' :: (emit k v ++ (emitPairs k fields ++
                    '\n' :: (pad j ++ cbrace :: rest)))))) := by
            simp [emitPairs]
          have hv := rt_emit v f k (emitPairs k fields ++ '\n' :: (pad j ++ cbrace :: rest))
            hfv (emitPairs_boundary _ _ _)
          have hpr := rt_emitPairs fields f k j rest hfp
          have hws1 : loadsVal f (' ' :: (emit k v ++ (emitPairs k fields ++
              '\n' :: (pad j ++ cbrace :: rest))))
              = loadsVal f (emit k v ++ (emitPairs k fields ++
                  '\n' :: (pad j ++ cbrace :: rest))) :=
            loadsVal_ws f (by simp [skipWs, isWs])
          rw [he, loadsPairs, skipWs_cons_not (by decide)]
          simp only [cbrace] at hws1 hv hpr ⊢
          simp [skipWs_nl, skipWs_pad, skipWs_replicate, skipWs, isWs,
            loadsStr_escChars, hws1, hv, hpr]
  termination_by fields _ _ _ _ _ => sizeOf fields
end

/-- Decoding a serialized value recovers it exactly: `json.loads` inverts
`json.dumps(·, indent=2)` on every modelled JSON value. -/
theorem loads_dumps (v : Json) : Json.loads (Json.dumps v) = some v := by
  have h := rt_emit v ((emit 0 v).length + 1) 0 [] (by omega) rfl
  rw [List.append_nil] at h
  simp [Json.loads, Json.dumps, h, skipWs]

/-! ## Claim theorems -/

/-- C1: for every operation taking a start_date/end_date/cutoff_date triple
(get_historical_stock_prices, get_crypto_prices, get_historical_crypto_prices),
the constructed URL carries as its end_date query parameter cutoff_date when
end_date > cutoff_date, and the caller-supplied end_date unchanged otherwise. -/
theorem c1_price_request_end_bound
    (ticker start_date end_date cutoff_date interval : String)
    (interval_multiplier : Int) (env : String → FetchOutcome) :
    ∃ p₁ p₂ p₃,
      (get_historical_stock_prices ticker start_date end_date cutoff_date interval
          interval_multiplier env).url
        = p₁ ++ ("&end_date=" ++ (if end_date > cutoff_date then cutoff_date else end_date)) ∧
      (get_crypto_prices ticker start_date end_date cutoff_date interval
          interval_multiplier env).url
        = p₂ ++ ("&end_date=" ++ (if end_date > cutoff_date then cutoff_date else end_date)) ∧
      (get_historical_crypto_prices ticker start_date end_date cutoff_date interval
          interval_multiplier env).url
        = p₃ ++ ("&end_date=" ++ (if end_date > cutoff_date then cutoff_date else end_date)) := by
  refine ⟨FINANCIAL_DATASETS_API_BASE ++ "/prices/?ticker=" ++ ticker ++ "&interval=" ++
      interval ++ "&interval_multiplier=" ++ toString interval_multiplier ++ "&start_date=" ++
      start_date,
    FINANCIAL_DATASETS_API_BASE ++ "/crypto/prices/?ticker=" ++ ticker ++ "&interval=" ++
      interval ++ "&interval_multiplier=" ++ toString interval_multiplier ++ "&start_date=" ++
      start_date,
    FINANCIAL_DATASETS_API_BASE ++ "/crypto/prices/?ticker=" ++ ticker ++ "&interval=" ++
      interval ++ "&interval_multiplier=" ++ toString interval_multiplier ++ "&start_date=" ++
      start_date, ?_, ?_, ?_⟩
  · simp [get_historical_stock_prices, String.append_assoc]
  · simp [get_crypto_prices, String.append_assoc]
  · simp [get_historical_crypto_prices, String.append_assoc]

/-- C2: every invocation of the three financial-statement operations builds a
URL whose final query parameter is report_period_lte set to the cutoff_date
argument; these operations take no end date, so nothing is clamped. -/
theorem c2_statements_pass_report_period_lte
    (ticker cutoff_date period : String) (limit : Int) (env : String → FetchOutcome) :
    ∃ p₁ p₂ p₃,
      (get_income_statements ticker cutoff_date period limit env).url
        = p₁ ++ ("&report_period_lte=" ++ cutoff_date) ∧
      (get_balance_sheets ticker cutoff_date period limit env).url
        = p₂ ++ ("&report_period_lte=" ++ cutoff_date) ∧
      (get_cash_flow_statements ticker cutoff_date period limit env).url
        = p₃ ++ ("&report_period_lte=" ++ cutoff_date) := by
  refine ⟨FINANCIAL_DATASETS_API_BASE ++ "/financials/income-statements/?ticker=" ++ ticker ++
      "&period=" ++ period ++ "&limit=" ++ toString limit,
    FINANCIAL_DATASETS_API_BASE ++ "/financials/balance-sheets/?ticker=" ++ ticker ++
      "&period=" ++ period ++ "&limit=" ++ toString limit,
    FINANCIAL_DATASETS_API_BASE ++ "/financials/cash-flow-statements/?ticker=" ++ ticker ++
      "&period=" ++ period ++ "&limit=" ++ toString limit, ?_, ?_, ?_⟩
  · simp [get_income_statements, String.append_assoc]
  · simp [get_balance_sheets, String.append_assoc]
  · simp [get_cash_flow_statements, String.append_assoc]

/-- C6: get_company_news builds its URL with a fixed limit of 20 and
cutoff_date passed directly as the upstream end_date query parameter; the
operation accepts no caller-supplied end date, so no clamping happens. -/
theorem c6_news_url_uses_cutoff (ticker cutoff_date : String) (env : String → FetchOutcome) :
    (get_company_news ticker cutoff_date env).url
      = (FINANCIAL_DATASETS_API_BASE ++ "/news/?limit=20") ++ ("&end_date=" ++ cutoff_date)
        ++ ("&ticker=" ++ ticker) := by
  have hm : ("/news/?limit=20" : String) ++ "&end_date=" = "/news/?limit=20&end_date=" := rfl
  simp only [get_company_news, String.append_assoc]
  conv_rhs => rw [← String.append_assoc "/news/?limit=20" "&end_date=", hm]

/-- C7: get_historical_crypto_prices is observationally identical to
get_crypto_prices — for every argument tuple and every network oracle the two
build the same URL and return the same result. -/
theorem c7_historical_crypto_prices_equals_crypto_prices
    (ticker start_date end_date cutoff_date interval : String)
    (interval_multiplier : Int) (env : String → FetchOutcome) :
    get_historical_crypto_prices ticker start_date end_date cutoff_date interval
        interval_multiplier env
      = get_crypto_prices ticker start_date end_date cutoff_date interval
          interval_multiplier env := rfl

/-- C9: get_available_crypto_tickers is independent of its cutoff_date
argument — any two cutoff dates give the same URL and the same result under
the same network oracle (cutoff_date never enters the request). -/
theorem c9_crypto_tickers_ignore_cutoff (cutoff₁ cutoff₂ : String)
    (env : String → FetchOutcome) :
    get_available_crypto_tickers cutoff₁ env = get_available_crypto_tickers cutoff₂ env := rfl

/-- C10: cutoff enforcement in the three price operations touches only the
end bound: ticker, interval, interval_multiplier and start_date appear in the
constructed URL exactly as supplied — unconditionally, hence in particular
when start_date > cutoff_date, since start_date is never clamped. -/
theorem c10_price_request_frame
    (ticker start_date end_date cutoff_date interval : String)
    (interval_multiplier : Int) (env : String → FetchOutcome) :
    ∃ q₁ q₂ q₃,
      (get_historical_stock_prices ticker start_date end_date cutoff_date interval
          interval_multiplier env).url
        = (FINANCIAL_DATASETS_API_BASE ++ "/prices/?ticker=" ++ ticker ++ "&interval=" ++
            interval ++ "&interval_multiplier=" ++ toString interval_multiplier ++
            "&start_date=" ++ start_date) ++ q₁ ∧
      (get_crypto_prices ticker start_date end_date cutoff_date interval
          interval_multiplier env).url
        = (FINANCIAL_DATASETS_API_BASE ++ "/crypto/prices/?ticker=" ++ ticker ++ "&interval=" ++
            interval ++ "&interval_multiplier=" ++ toString interval_multiplier ++
            "&start_date=" ++ start_date) ++ q₂ ∧
      (get_historical_crypto_prices ticker start_date end_date cutoff_date interval
          interval_multiplier env).url
        = (FINANCIAL_DATASETS_API_BASE ++ "/crypto/prices/?ticker=" ++ ticker ++ "&interval=" ++
            interval ++ "&interval_multiplier=" ++ toString interval_multiplier ++
            "&start_date=" ++ start_date) ++ q₃ := by
  refine ⟨"&end_date=" ++ (if end_date > cutoff_date then cutoff_date else end_date),
    "&end_date=" ++ (if end_date > cutoff_date then cutoff_date else end_date),
    "&end_date=" ++ (if end_date > cutoff_date then cutoff_date else end_date), ?_, ?_, ?_⟩
  · simp [get_historical_stock_prices, String.append_assoc]
  · simp [get_crypto_prices, String.append_assoc]
  · simp [get_historical_crypto_prices, String.append_assoc]

/-- C3 counterexample: the claim "every exposed operation returns its fixed
not-found string on a request-level failure" is false — against an HTTP 500
failure, get_available_crypto_tickers returns the empty-array serialization
"[]", which is not its not-found string. -/
theorem c3_cex_crypto_tickers_http_failure :
    (get_available_crypto_tickers "2024-01-01"
        (fun _ => FetchOutcome.failure "Server error: 500 Internal Server Error")).result
      = .ok "[]" ∧
    ("[]" : String)
      ≠ "Unable to fetch available crypto tickers or no available crypto tickers found." :=
  ⟨rfl, by decide⟩

/-- C3 (amended): when the HTTP request fails at the request level, each of
the seven operations other than get_available_crypto_tickers returns its
fixed not-found string, while get_available_crypto_tickers returns "[]", the
serialization of the empty tickers list. -/
theorem c3_request_failure_collapses
    (ticker cutoff_date period start_date end_date interval : String)
    (limit interval_multiplier : Int) (env : String → FetchOutcome) (msg : String) :
    (env (get_income_statements ticker cutoff_date period limit env).url = .failure msg →
      (get_income_statements ticker cutoff_date period limit env).result
        = .ok "Unable to fetch income statements or no income statements found.") ∧
    (env (get_balance_sheets ticker cutoff_date period limit env).url = .failure msg →
      (get_balance_sheets ticker cutoff_date period limit env).result
        = .ok "Unable to fetch balance sheets or no balance sheets found.") ∧
    (env (get_cash_flow_statements ticker cutoff_date period limit env).url = .failure msg →
      (get_cash_flow_statements ticker cutoff_date period limit env).result
        = .ok "Unable to fetch cash flow statements or no cash flow statements found.") ∧
    (env (get_historical_stock_prices ticker start_date end_date cutoff_date interval
        interval_multiplier env).url = .failure msg →
      (get_historical_stock_prices ticker start_date end_date cutoff_date interval
        interval_multiplier env).result = .ok "Unable to fetch prices or no prices found.") ∧
    (env (get_company_news ticker cutoff_date env).url = .failure msg →
      (get_company_news ticker cutoff_date env).result
        = .ok "Unable to fetch news or no news found.") ∧
    (env (get_available_crypto_tickers cutoff_date env).url = .failure msg →
      (get_available_crypto_tickers cutoff_date env).result = .ok "[]") ∧
    (env (get_crypto_prices ticker start_date end_date cutoff_date interval
        interval_multiplier env).url = .failure msg →
      (get_crypto_prices ticker start_date end_date cutoff_date interval
        interval_multiplier env).result = .ok "Unable to fetch prices or no prices found.") ∧
    (env (get_historical_crypto_prices ticker start_date end_date cutoff_date interval
        interval_multiplier env).url = .failure msg →
      (get_historical_crypto_prices ticker start_date end_date cutoff_date interval
        interval_multiplier env).result
        = .ok "Unable to fetch prices or no prices found.") := by
  refine ⟨?_, ?_, ?_, ?_, ?_, ?_, ?_, ?_⟩
  · intro h
    simp only [get_income_statements] at h ⊢
    simp [make_request, h, Json.isFalsy, pyGet, lookupField]
  · intro h
    simp only [get_balance_sheets] at h ⊢
    simp [make_request, h, Json.isFalsy, pyGet, lookupField]
  · intro h
    simp only [get_cash_flow_statements] at h ⊢
    simp [make_request, h, Json.isFalsy, pyGet, lookupField]
  · intro h
    simp only [get_historical_stock_prices] at h ⊢
    simp at h
    simp [make_request, h, Json.isFalsy, pyGet, lookupField]
  · intro h
    simp only [get_company_news] at h ⊢
    simp [make_request, h, Json.isFalsy, pyGet, lookupField]
  · intro h
    simp only [get_available_crypto_tickers] at h ⊢
    simp [make_request, h, Json.isFalsy, pyGet, lookupField]
    rfl
  · intro h
    simp only [get_crypto_prices] at h ⊢
    simp at h
    simp [make_request, h, Json.isFalsy, pyGet, lookupField]
  · intro h
    simp only [get_historical_crypto_prices] at h ⊢
    simp at h
    simp [make_request, h, Json.isFalsy, pyGet, lookupField]

/-- C3 witness: the amended behavior at a concrete failing request. -/
theorem c3_request_failure_collapses_witness :
    (get_income_statements "AAPL" "2024-01-01" "annual" 4
        (fun _ => FetchOutcome.failure "boom")).result
      = .ok "Unable to fetch income statements or no income statements found." ∧
    (get_available_crypto_tickers "2024-01-01" (fun _ => FetchOutcome.failure "boom")).result
      = .ok "[]" :=
  ⟨(c3_request_failure_collapses "AAPL" "2024-01-01" "annual" "2023-01-01" "2023-12-31" "day"
      4 1 (fun _ => FetchOutcome.failure "boom") "boom").1 rfl,
   (c3_request_failure_collapses "AAPL" "2024-01-01" "annual" "2023-01-01" "2023-12-31" "day"
      4 1 (fun _ => FetchOutcome.failure "boom") "boom").2.2.2.2.2.1 rfl⟩

/-- C4 counterexample: the claim "every exposed operation returns its fixed
not-found string when the envelope field is an empty array" is false — for a
body whose tickers field is the empty array, get_available_crypto_tickers
returns the empty-array serialization "[]", not its not-found string. -/
theorem c4_cex_crypto_tickers_empty_envelope :
    (get_available_crypto_tickers "2024-01-01"
        (fun _ => FetchOutcome.success (.obj [("tickers", .arr [])]))).result = .ok "[]" ∧
    ("[]" : String)
      ≠ "Unable to fetch available crypto tickers or no available crypto tickers found." :=
  ⟨rfl, by decide⟩

/-- C4 (amended): when the upstream body is a JSON object whose envelope
field is the empty array, each of the seven operations other than
get_available_crypto_tickers returns its fixed not-found string, while
get_available_crypto_tickers returns the empty-array serialization "[]". -/
theorem c4_empty_envelope_collapses
    (ticker cutoff_date period start_date end_date interval : String)
    (limit interval_multiplier : Int) (env : String → FetchOutcome)
    (f₁ f₂ f₃ f₄ f₅ f₆ f₇ f₈ : List (String × Json)) :
    (env (get_income_statements ticker cutoff_date period limit env).url
        = .success (.obj f₁) →
      lookupField f₁ "income_statements" = some (.arr []) →
      (get_income_statements ticker cutoff_date period limit env).result
        = .ok "Unable to fetch income statements or no income statements found.") ∧
    (env (get_balance_sheets ticker cutoff_date period limit env).url
        = .success (.obj f₂) →
      lookupField f₂ "balance_sheets" = some (.arr []) →
      (get_balance_sheets ticker cutoff_date period limit env).result
        = .ok "Unable to fetch balance sheets or no balance sheets found.") ∧
    (env (get_cash_flow_statements ticker cutoff_date period limit env).url
        = .success (.obj f₃) →
      lookupField f₃ "cash_flow_statements" = some (.arr []) →
      (get_cash_flow_statements ticker cutoff_date period limit env).result
        = .ok "Unable to fetch cash flow statements or no cash flow statements found.") ∧
    (env (get_historical_stock_prices ticker start_date end_date cutoff_date interval
        interval_multiplier env).url = .success (.obj f₄) →
      lookupField f₄ "prices" = some (.arr []) →
      (get_historical_stock_prices ticker start_date end_date cutoff_date interval
        interval_multiplier env).result = .ok "Unable to fetch prices or no prices found.") ∧
    (env (get_company_news ticker cutoff_date env).url = .success (.obj f₅) →
      lookupField f₅ "news" = some (.arr []) →
      (get_company_news ticker cutoff_date env).result
        = .ok "Unable to fetch news or no news found.") ∧
    (env (get_available_crypto_tickers cutoff_date env).url = .success (.obj f₆) →
      lookupField f₆ "tickers" = some (.arr []) →
      (get_available_crypto_tickers cutoff_date env).result = .ok "[]") ∧
    (env (get_crypto_prices ticker start_date end_date cutoff_date interval
        interval_multiplier env).url = .success (.obj f₇) →
      lookupField f₇ "prices" = some (.arr []) →
      (get_crypto_prices ticker start_date end_date cutoff_date interval
        interval_multiplier env).result = .ok "Unable to fetch prices or no prices found.") ∧
    (env (get_historical_crypto_prices ticker start_date end_date cutoff_date interval
        interval_multiplier env).url = .success (.obj f₈) →
      lookupField f₈ "prices" = some (.arr []) →
      (get_historical_crypto_prices ticker start_date end_date cutoff_date interval
        interval_multiplier env).result
        = .ok "Unable to fetch prices or no prices found.") := by
  refine ⟨?_, ?_, ?_, ?_, ?_, ?_, ?_, ?_⟩
  · intro h hl
    cases f₁ with
    | nil => simp [lookupField] at hl
    | cons pr fs =>
        simp only [get_income_statements] at h ⊢
        simp [make_request, h, Json.isFalsy, pyGet, hl]
  · intro h hl
    cases f₂ with
    | nil => simp [lookupField] at hl
    | cons pr fs =>
        simp only [get_balance_sheets] at h ⊢
        simp [make_request, h, Json.isFalsy, pyGet, hl]
  · intro h hl
    cases f₃ with
    | nil => simp [lookupField] at hl
    | cons pr fs =>
        simp only [get_cash_flow_statements] at h ⊢
        simp [make_request, h, Json.isFalsy, pyGet, hl]
  · intro h hl
    cases f₄ with
    | nil => simp [lookupField] at hl
    | cons pr fs =>
        simp only [get_historical_stock_prices] at h ⊢
        simp at h
        simp [make_request, h, Json.isFalsy, pyGet, hl]
  · intro h hl
    cases f₅ with
    | nil => simp [lookupField] at hl
    | cons pr fs =>
        simp only [get_company_news] at h ⊢
        simp [make_request, h, Json.isFalsy, pyGet, hl]
  · intro h hl
    cases f₆ with
    | nil => simp [lookupField] at hl
    | cons pr fs =>
        simp only [get_available_crypto_tickers] at h ⊢
        simp [make_request, h, Json.isFalsy, pyGet, hl]
        rfl
  · intro h hl
    cases f₇ with
    | nil => simp [lookupField] at hl
    | cons pr fs =>
        simp only [get_crypto_prices] at h ⊢
        simp at h
        simp [make_request, h, Json.isFalsy, pyGet, hl]
  · intro h hl
    cases f₈ with
    | nil => simp [lookupField] at hl
    | cons pr fs =>
        simp only [get_historical_crypto_prices] at h ⊢
        simp at h
        simp [make_request, h, Json.isFalsy, pyGet, hl]

/-- C4 witness: the amended behavior at a concrete empty-envelope body. -/
theorem c4_empty_envelope_collapses_witness :
    (get_income_statements "AAPL" "2024-01-01" "annual" 4
        (fun _ => FetchOutcome.success (.obj [("income_statements", .arr []),
          ("tickers", .arr [])]))).result
      = .ok "Unable to fetch income statements or no income statements found." ∧
    (get_available_crypto_tickers "2024-01-01"
        (fun _ => FetchOutcome.success (.obj [("income_statements", .arr []),
          ("tickers", .arr [])]))).result
      = .ok "[]" :=
  ⟨(c4_empty_envelope_collapses "AAPL" "2024-01-01" "annual" "2023-01-01" "2023-12-31" "day"
      4 1 (fun _ => FetchOutcome.success (.obj [("income_statements", .arr []),
        ("tickers", .arr [])]))
      [("income_statements", .arr []), ("tickers", .arr [])]
      [("income_statements", .arr []), ("tickers", .arr [])]
      [("income_statements", .arr []), ("tickers", .arr [])]
      [("income_statements", .arr []), ("tickers", .arr [])]
      [("income_statements", .arr []), ("tickers", .arr [])]
      [("income_statements", .arr []), ("tickers", .arr [])]
      [("income_statements", .arr []), ("tickers", .arr [])]
      [("income_statements", .arr []), ("tickers", .arr [])]).1 rfl rfl,
   (c4_empty_envelope_collapses "AAPL" "2024-01-01" "annual" "2023-01-01" "2023-12-31" "day"
      4 1 (fun _ => FetchOutcome.success (.obj [("income_statements", .arr []),
        ("tickers", .arr [])]))
      [("income_statements", .arr []), ("tickers", .arr [])]
      [("income_statements", .arr []), ("tickers", .arr [])]
      [("income_statements", .arr []), ("tickers", .arr [])]
      [("income_statements", .arr []), ("tickers", .arr [])]
      [("income_statements", .arr []), ("tickers", .arr [])]
      [("income_statements", .arr []), ("tickers", .arr [])]
      [("income_statements", .arr []), ("tickers", .arr [])]
      [("income_statements", .arr []), ("tickers", .arr [])]).2.2.2.2.2.1 rfl rfl⟩

/-- The response-handling block every tool except the ticker listing uses
resolves to a returned string whenever the decoded data is an object or
falsy. -/
theorem handle_ok (data : Json) (key nf : String)
    (hd : (∃ fields, data = .obj fields) ∨ data.isFalsy = true) :
    ∃ s, (if data.isFalsy then (Except.ok nf : Except PyExn String)
          else match pyGet data key (.arr []) with
               | .error e => .error e
               | .ok x => if x.isFalsy then .ok nf else .ok x.dumps) = .ok s := by
  by_cases hf : data.isFalsy = true
  · exact ⟨nf, by simp [hf]⟩
  · rcases hd with ⟨fields, rfl⟩ | hfl
    · by_cases hx : ((lookupField fields key).getD (Json.arr [])).isFalsy = true
      · exact ⟨nf, by simp [hf, pyGet, hx]⟩
      · exact ⟨((lookupField fields key).getD (Json.arr [])).dumps, by simp [hf, pyGet, hx]⟩
    · exact absurd hfl hf

/-- The ticker-listing variant of `handle_ok` (no emptiness re-check). -/
theorem handle_ok_tickers (data : Json) (key nf : String)
    (hd : (∃ fields, data = .obj fields) ∨ data.isFalsy = true) :
    ∃ s, (if data.isFalsy then (Except.ok nf : Except PyExn String)
          else match pyGet data key (.arr []) with
               | .error e => .error e
               | .ok x => .ok x.dumps) = .ok s := by
  by_cases hf : data.isFalsy = true
  · exact ⟨nf, by simp [hf]⟩
  · rcases hd with ⟨fields, rfl⟩ | hfl
    · exact ⟨((lookupField fields key).getD (Json.arr [])).dumps, by simp [hf, pyGet]⟩
    · exact absurd hfl hf

/-- Under a safe outcome, `make_request` yields an object or a falsy value. -/
theorem make_request_shape (env : String → FetchOutcome) (url : String)
    (h : SafeBody (env url)) :
    (∃ fields, make_request env url = .obj fields) ∨ (make_request env url).isFalsy = true := by
  cases he : env url with
  | failure msg => exact .inl ⟨[("Error", .str msg)], by simp [make_request, he]⟩
  | success body =>
      rw [he] at h
      simp only [SafeBody] at h
      rcases h with ⟨fields, rfl⟩ | hb
      · exact .inl ⟨fields, by simp [make_request, he]⟩
      · exact .inr (by simp [make_request, he, hb])

/-- C5 counterexample: the claim "the adapter never raises for any response
body" is false — a truthy non-object body (here the JSON number 5) makes the
data.get call raise AttributeError. -/
theorem c5_cex_nonobject_body_raises :
    (get_income_statements "AAPL" "2024-01-01" "annual" 4
        (fun _ => FetchOutcome.success (.num 5))).result = .error .attributeError := rfl

/-- C5 (amended): for every exposed operation, whenever the upstream outcome
is a request-level failure or a body that is a JSON object or falsy, the
invocation returns a string result and raises nothing; only a truthy
non-object body escapes as an AttributeError. -/
theorem c5_safe_outcomes_return_strings
    (ticker cutoff_date period start_date end_date interval : String)
    (limit interval_multiplier : Int) (env : String → FetchOutcome) :
    (SafeBody (env (get_income_statements ticker cutoff_date period limit env).url) →
      ∃ s, (get_income_statements ticker cutoff_date period limit env).result = .ok s) ∧
    (SafeBody (env (get_balance_sheets ticker cutoff_date period limit env).url) →
      ∃ s, (get_balance_sheets ticker cutoff_date period limit env).result = .ok s) ∧
    (SafeBody (env (get_cash_flow_statements ticker cutoff_date period limit env).url) →
      ∃ s, (get_cash_flow_statements ticker cutoff_date period limit env).result = .ok s) ∧
    (SafeBody (env (get_historical_stock_prices ticker start_date end_date cutoff_date interval
        interval_multiplier env).url) →
      ∃ s, (get_historical_stock_prices ticker start_date end_date cutoff_date interval
        interval_multiplier env).result = .ok s) ∧
    (SafeBody (env (get_company_news ticker cutoff_date env).url) →
      ∃ s, (get_company_news ticker cutoff_date env).result = .ok s) ∧
    (SafeBody (env (get_available_crypto_tickers cutoff_date env).url) →
      ∃ s, (get_available_crypto_tickers cutoff_date env).result = .ok s) ∧
    (SafeBody (env (get_crypto_prices ticker start_date end_date cutoff_date interval
        interval_multiplier env).url) →
      ∃ s, (get_crypto_prices ticker start_date end_date cutoff_date interval
        interval_multiplier env).result = .ok s) ∧
    (SafeBody (env (get_historical_crypto_prices ticker start_date end_date cutoff_date interval
        interval_multiplier env).url) →
      ∃ s, (get_historical_crypto_prices ticker start_date end_date cutoff_date interval
        interval_multiplier env).result = .ok s) := by
  refine ⟨?_, ?_, ?_, ?_, ?_, ?_, ?_, ?_⟩
  · intro hsafe
    simp only [get_income_statements] at hsafe ⊢
    exact handle_ok _ _ _ (make_request_shape env _ hsafe)
  · intro hsafe
    simp only [get_balance_sheets] at hsafe ⊢
    exact handle_ok _ _ _ (make_request_shape env _ hsafe)
  · intro hsafe
    simp only [get_cash_flow_statements] at hsafe ⊢
    exact handle_ok _ _ _ (make_request_shape env _ hsafe)
  · intro hsafe
    simp only [get_historical_stock_prices] at hsafe ⊢
    exact handle_ok _ _ _ (make_request_shape env _ hsafe)
  · intro hsafe
    simp only [get_company_news] at hsafe ⊢
    exact handle_ok _ _ _ (make_request_shape env _ hsafe)
  · intro hsafe
    simp only [get_available_crypto_tickers] at hsafe ⊢
    exact handle_ok_tickers _ _
      "Unable to fetch available crypto tickers or no available crypto tickers found."
      (make_request_shape env _ hsafe)
  · intro hsafe
    simp only [get_crypto_prices] at hsafe ⊢
    exact handle_ok _ _ _ (make_request_shape env _ hsafe)
  · intro hsafe
    simp only [get_historical_crypto_prices] at hsafe ⊢
    exact handle_ok _ _ _ (make_request_shape env _ hsafe)

/-- C5 witness: the amended guarantee at two concrete safe outcomes. -/
theorem c5_safe_outcomes_return_strings_witness :
    (∃ s, (get_income_statements "AAPL" "2024-01-01" "annual" 4
        (fun _ => FetchOutcome.failure "boom")).result = .ok s) ∧
    (∃ s, (get_available_crypto_tickers "2024-01-01"
        (fun _ => FetchOutcome.success (.obj [("tickers", .arr [.str "BTC-USD"])]))).result
      = .ok s) :=
  ⟨(c5_safe_outcomes_return_strings "AAPL" "2024-01-01" "annual" "2023-01-01" "2023-12-31"
      "day" 4 1 (fun _ => FetchOutcome.failure "boom")).1 trivial,
   (c5_safe_outcomes_return_strings "AAPL" "2024-01-01" "annual" "2023-01-01" "2023-12-31"
      "day" 4 1 (fun _ => FetchOutcome.success (.obj [("tickers", .arr [.str "BTC-USD"])])))
      |>.2.2.2.2.2.1 (Or.inl ⟨[("tickers", .arr [.str "BTC-USD"])], rfl⟩)⟩

/-- C8: for every exposed operation, a well-formed object body whose envelope
field holds a non-empty (truthy) value makes the operation return exactly
the serialization of that value, and decoding the returned string recovers
the envelope value unchanged — no field added, dropped or reshaped. -/
theorem c8_envelope_passthrough_roundtrip
    (ticker cutoff_date period start_date end_date interval : String)
    (limit interval_multiplier : Int) (env : String → FetchOutcome)
    (f₁ f₂ f₃ f₄ f₅ f₆ f₇ f₈ : List (String × Json)) (v₁ v₂ v₃ v₄ v₅ v₆ v₇ v₈ : Json) :
    (env (get_income_statements ticker cutoff_date period limit env).url
        = .success (.obj f₁) →
      lookupField f₁ "income_statements" = some v₁ → v₁.isFalsy = false →
      (get_income_statements ticker cutoff_date period limit env).result
        = .ok (Json.dumps v₁) ∧ Json.loads (Json.dumps v₁) = some v₁) ∧
    (env (get_balance_sheets ticker cutoff_date period limit env).url
        = .success (.obj f₂) →
      lookupField f₂ "balance_sheets" = some v₂ → v₂.isFalsy = false →
      (get_balance_sheets ticker cutoff_date period limit env).result
        = .ok (Json.dumps v₂) ∧ Json.loads (Json.dumps v₂) = some v₂) ∧
    (env (get_cash_flow_statements ticker cutoff_date period limit env).url
        = .success (.obj f₃) →
      lookupField f₃ "cash_flow_statements" = some v₃ → v₃.isFalsy = false →
      (get_cash_flow_statements ticker cutoff_date period limit env).result
        = .ok (Json.dumps v₃) ∧ Json.loads (Json.dumps v₃) = some v₃) ∧
    (env (get_historical_stock_prices ticker start_date end_date cutoff_date interval
        interval_multiplier env).url = .success (.obj f₄) →
      lookupField f₄ "prices" = some v₄ → v₄.isFalsy = false →
      (get_historical_stock_prices ticker start_date end_date cutoff_date interval
        interval_multiplier env).result
        = .ok (Json.dumps v₄) ∧ Json.loads (Json.dumps v₄) = some v₄) ∧
    (env (get_company_news ticker cutoff_date env).url = .success (.obj f₅) →
      lookupField f₅ "news" = some v₅ → v₅.isFalsy = false →
      (get_company_news ticker cutoff_date env).result
        = .ok (Json.dumps v₅) ∧ Json.loads (Json.dumps v₅) = some v₅) ∧
    (env (get_available_crypto_tickers cutoff_date env).url = .success (.obj f₆) →
      lookupField f₆ "tickers" = some v₆ → v₆.isFalsy = false →
      (get_available_crypto_tickers cutoff_date env).result
        = .ok (Json.dumps v₆) ∧ Json.loads (Json.dumps v₆) = some v₆) ∧
    (env (get_crypto_prices ticker start_date end_date cutoff_date interval
        interval_multiplier env).url = .success (.obj f₇) →
      lookupField f₇ "prices" = some v₇ → v₇.isFalsy = false →
      (get_crypto_prices ticker start_date end_date cutoff_date interval
        interval_multiplier env).result
        = .ok (Json.dumps v₇) ∧ Json.loads (Json.dumps v₇) = some v₇) ∧
    (env (get_historical_crypto_prices ticker start_date end_date cutoff_date interval
        interval_multiplier env).url = .success (.obj f₈) →
      lookupField f₈ "prices" = some v₈ → v₈.isFalsy = false →
      (get_historical_crypto_prices ticker start_date end_date cutoff_date interval
        interval_multiplier env).result
        = .ok (Json.dumps v₈) ∧ Json.loads (Json.dumps v₈) = some v₈) := by
  refine ⟨?_, ?_, ?_, ?_, ?_, ?_, ?_, ?_⟩
  · intro h hl hv
    refine ⟨?_, loads_dumps _⟩
    cases f₁ with
    | nil => simp [lookupField] at hl
    | cons pr fs =>
        simp only [get_income_statements] at h ⊢
        have hobj : (Json.obj (pr :: fs)).isFalsy = false := rfl
        simp [make_request, h, pyGet, hl, hv, hobj]
  · intro h hl hv
    refine ⟨?_, loads_dumps _⟩
    cases f₂ with
    | nil => simp [lookupField] at hl
    | cons pr fs =>
        simp only [get_balance_sheets] at h ⊢
        have hobj : (Json.obj (pr :: fs)).isFalsy = false := rfl
        simp [make_request, h, pyGet, hl, hv, hobj]
  · intro h hl hv
    refine ⟨?_, loads_dumps _⟩
    cases f₃ with
    | nil => simp [lookupField] at hl
    | cons pr fs =>
        simp only [get_cash_flow_statements] at h ⊢
        have hobj : (Json.obj (pr :: fs)).isFalsy = false := rfl
        simp [make_request, h, pyGet, hl, hv, hobj]
  · intro h hl hv
    refine ⟨?_, loads_dumps _⟩
    cases f₄ with
    | nil => simp [lookupField] at hl
    | cons pr fs =>
        simp only [get_historical_stock_prices] at h ⊢
        simp at h
        have hobj : (Json.obj (pr :: fs)).isFalsy = false := rfl
        simp [make_request, h, pyGet, hl, hv, hobj]
  · intro h hl hv
    refine ⟨?_, loads_dumps _⟩
    cases f₅ with
    | nil => simp [lookupField] at hl
    | cons pr fs =>
        simp only [get_company_news] at h ⊢
        have hobj : (Json.obj (pr :: fs)).isFalsy = false := rfl
        simp [make_request, h, pyGet, hl, hv, hobj]
  · intro h hl hv
    refine ⟨?_, loads_dumps _⟩
    cases f₆ with
    | nil => simp [lookupField] at hl
    | cons pr fs =>
        simp only [get_available_crypto_tickers] at h ⊢
        have hobj : (Json.obj (pr :: fs)).isFalsy = false := rfl
        simp [make_request, h, pyGet, hl, hv, hobj]
  · intro h hl hv
    refine ⟨?_, loads_dumps _⟩
    cases f₇ with
    | nil => simp [lookupField] at hl
    | cons pr fs =>
        simp only [get_crypto_prices] at h ⊢
        simp at h
        have hobj : (Json.obj (pr :: fs)).isFalsy = false := rfl
        simp [make_request, h, pyGet, hl, hv, hobj]
  · intro h hl hv
    refine ⟨?_, loads_dumps _⟩
    cases f₈ with
    | nil => simp [lookupField] at hl
    | cons pr fs =>
        simp only [get_historical_crypto_prices] at h ⊢
        simp at h
        have hobj : (Json.obj (pr :: fs)).isFalsy = false := rfl
        simp [make_request, h, pyGet, hl, hv, hobj]

/-- C8 witness: the pass-through and round-trip at a concrete payload. -/
theorem c8_envelope_passthrough_roundtrip_witness :
    ((get_income_statements "AAPL" "2024-01-01" "annual" 4
        (fun _ => FetchOutcome.success (.obj [("income_statements", .arr [.num 1]),
          ("tickers", .arr [.str "BTC-USD"])]))).result
      = .ok (Json.dumps (.arr [.num 1]))
      ∧ Json.loads (Json.dumps (.arr [.num 1])) = some (.arr [.num 1])) ∧
    ((get_available_crypto_tickers "2024-01-01"
        (fun _ => FetchOutcome.success (.obj [("income_statements", .arr [.num 1]),
          ("tickers", .arr [.str "BTC-USD"])]))).result
      = .ok (Json.dumps (.arr [.str "BTC-USD"]))
      ∧ Json.loads (Json.dumps (.arr [.str "BTC-USD"])) = some (.arr [.str "BTC-USD"])) :=
  ⟨(c8_envelope_passthrough_roundtrip "AAPL" "2024-01-01" "annual" "2023-01-01" "2023-12-31"
      "day" 4 1
      (fun _ => FetchOutcome.success (.obj [("income_statements", .arr [.num 1]),
        ("tickers", .arr [.str "BTC-USD"])]))
      [("income_statements", .arr [.num 1]), ("tickers", .arr [.str "BTC-USD"])]
      [("income_statements", .arr [.num 1]), ("tickers", .arr [.str "BTC-USD"])]
      [("income_statements", .arr [.num 1]), ("tickers", .arr [.str "BTC-USD"])]
      [("income_statements", .arr [.num 1]), ("tickers", .arr [.str "BTC-USD"])]
      [("income_statements", .arr [.num 1]), ("tickers", .arr [.str "BTC-USD"])]
      [("income_statements", .arr [.num 1]), ("tickers", .arr [.str "BTC-USD"])]
      [("income_statements", .arr [.num 1]), ("tickers", .arr [.str "BTC-USD"])]
      [("income_statements", .arr [.num 1]), ("tickers", .arr [.str "BTC-USD"])]
      (.arr [.num 1]) (.arr [.num 1]) (.arr [.num 1]) (.arr [.num 1]) (.arr [.num 1])
      (.arr [.str "BTC-USD"]) (.arr [.num 1]) (.arr [.num 1])).1 rfl rfl rfl,
   (c8_envelope_passthrough_roundtrip "AAPL" "2024-01-01" "annual" "2023-01-01" "2023-12-31"
      "day" 4 1
      (fun _ => FetchOutcome.success (.obj [("income_statements", .arr [.num 1]),
        ("tickers", .arr [.str "BTC-USD"])]))
      [("income_statements", .arr [.num 1]), ("tickers", .arr [.str "BTC-USD"])]
      [("income_statements", .arr [.num 1]), ("tickers", .arr [.str "BTC-USD"])]
      [("income_statements", .arr [.num 1]), ("tickers", .arr [.str "BTC-USD"])]
      [("income_statements", .arr [.num 1]), ("tickers", .arr [.str "BTC-USD"])]
      [("income_statements", .arr [.num 1]), ("tickers", .arr [.str "BTC-USD"])]
      [("income_statements", .arr [.num 1]), ("tickers", .arr [.str "BTC-USD"])]
      [("income_statements", .arr [.num 1]), ("tickers", .arr [.str "BTC-USD"])]
      [("income_statements", .arr [.num 1]), ("tickers", .arr [.str "BTC-USD"])]
      (.arr [.num 1]) (.arr [.num 1]) (.arr [.num 1]) (.arr [.num 1]) (.arr [.num 1])
      (.arr [.str "BTC-USD"]) (.arr [.num 1]) (.arr [.num 1])).2.2.2.2.2.1 rfl rfl rfl⟩
